import Mathlib

/-!
Verification of the medicare dashboard front-end scripts.

The development shallowly embeds the two client-side scripts of the
repository (the main dashboard script and the chart utilities) as pure
Lean functions:

* DOM class state is modelled by explicit booleans and lists of class
  strings; element lookup that can miss is modelled with `Option`.
* The document-wide click listener of the layout controller is a
  function from the viewport width, the (optional) sidebar state and
  the click-target relationships to an `Except`: a thrown `TypeError`
  (a null dereference) is `Except.error`.
* JavaScript string primitives used by the scripts
  (`String.prototype.replace` with a string pattern, which replaces
  only the first occurrence, and `String.prototype.includes`) are
  modelled on the character lists underlying `String`.
* `Math.random()` is modelled by an arbitrary stream `ℕ → ℚ` of draws;
  `Math.round` is `⌊x + 1/2⌋` (round half towards positive infinity),
  matching the JavaScript builtin on the rationals.
-/

namespace Medicare

/-! ## JavaScript string primitives -/

/-- One step of `String.prototype.replace` with a plain string pattern:
replace the first occurrence of `pat` in the character list by `rep`,
scanning left to right.  An empty pattern matches at position 0, as in
JavaScript. -/
def replaceOnceAux (pat rep : List Char) : List Char → List Char
  | [] => []
  | c :: cs =>
    if pat.isPrefixOf (c :: cs) then rep ++ (c :: cs).drop pat.length
    else c :: replaceOnceAux pat rep cs

/-- `s.replace(pat, rep)` for string (non-regexp) patterns: only the
first occurrence is replaced. -/
def jsReplaceOnce (s pat rep : String) : String :=
  ⟨replaceOnceAux pat.data rep.data s.data⟩

/-- `Math.round`: round half towards positive infinity. -/
def jsRound (x : ℚ) : ℤ := ⌊x + 1/2⌋

/-! ## main.js — sidebar document-click listener

`document.addEventListener('click', ...)` is installed unconditionally
by the `DOMContentLoaded` handler; only the toggle-click listener is
guarded by `if (sidebarToggle && sidebar)`.  The click listener reads

    window.innerWidth <= 768 &&
    sidebar.classList.contains('active') &&
    !sidebar.contains(event.target) &&
    event.target !== sidebarToggle

with JavaScript short-circuit evaluation: when the width test fails the
`sidebar` variable is never dereferenced, otherwise accessing
`sidebar.classList` on a `null` sidebar throws a `TypeError`. -/

/-- The document-wide click listener of main.js.  `sidebar` is `none`
when the page has no `#sidebar` element, otherwise `some active` where
`active` records the presence of the `active` class.  `targetInSidebar`
is `sidebar.contains(event.target)` and `targetIsToggle` is
`event.target === sidebarToggle` (false whenever the toggle is absent:
an element is never `null`).  The result is the new sidebar state, or
the thrown `TypeError`. -/
def documentClickHandler (innerWidth : ℤ) (sidebar : Option Bool)
    (targetInSidebar targetIsToggle : Bool) : Except String (Option Bool) :=
  if innerWidth ≤ 768 then
    match sidebar with
    | none => Except.error "TypeError: Cannot read properties of null (reading classList)"
    | some active =>
      if active ∧ targetInSidebar = false ∧ targetIsToggle = false then
        Except.ok (some false)
      else
        Except.ok (some active)
  else
    Except.ok sidebar

/-! ## main.js — active navigation link

```
const currentPath = window.location.pathname;
navLinks.forEach(link => {
    const href = link.getAttribute('href');
    if (href && currentPath.includes(href.replace('/', '')) && href !== '#') {
        link.classList.add('active');
    } else {
        link.classList.remove('active');
    }
});
```

`getAttribute` returns `null` for a missing attribute (`none`); a
present attribute is `some h`, and `href &&` is falsy exactly when the
attribute is missing or the empty string.  `href.replace('/', '')`
strips only the first slash. -/

/-- A sidebar navigation link: its `href` attribute (absent = `none`)
and whether it currently carries the `active` class. -/
structure NavLink where
  href : Option String
  active : Bool
  deriving DecidableEq, Repr

/-- The body of the `navLinks.forEach` callback for one link. -/
def navStep (currentPath : String) (l : NavLink) : NavLink :=
  match l.href with
  | none => { l with active := false }
  | some h =>
    if h ≠ "" ∧ (jsReplaceOnce h "/" "").data <:+: currentPath.data ∧ h ≠ "#" then
      { l with active := true }
    else
      { l with active := false }

/-- The whole `navLinks.forEach` pass over the link list. -/
def navUpdate (currentPath : String) (links : List NavLink) : List NavLink :=
  links.map (navStep currentPath)

/-! ## main.js — form validation and the unload guard -/

/-- A form input as the unload guard sees it: its `value` and whether
it carries the `data-initial` attribute. -/
structure FormInput where
  value : String
  hasInitial : Bool
  deriving DecidableEq, Repr

/-- A form: its element id, its class list, the result of the native
`checkValidity()` (modelled as a field), and its inputs. -/
structure Form where
  id : String
  classes : List String
  checkValidity : Bool
  inputs : List FormInput
  deriving DecidableEq, Repr

/-- A page is the document-order list of its forms;
`document.getElementById` returns the first form with the id. -/
def getFormById (page : List Form) (formId : String) : Option Form :=
  page.find? (fun f => f.id == formId)

/-- `classList.add`: a `DOMTokenList` never holds duplicates. -/
def addClass (classes : List String) (c : String) : List String :=
  if c ∈ classes then classes else classes ++ [c]

/-- Update the first list element satisfying `p` (the others, including
later duplicates, are untouched) — DOM mutation through the reference
returned by `getElementById`. -/
def updateFirst (p : α → Bool) (g : α → α) : List α → List α
  | [] => []
  | x :: xs => if p x then g x :: xs else x :: updateFirst p g xs

/-- `validateForm(formId)`: missing form → `true` and no change;
otherwise add `was-validated` to the form's classes and return its
native validity.  Returns the updated page together with the boolean. -/
def validateForm (page : List Form) (formId : String) : List Form × Bool :=
  match getFormById page formId with
  | none => (page, true)
  | some f =>
    (updateFirst (fun f => f.id == formId)
      (fun f => { f with classes := addClass f.classes "was-validated" }) page,
     f.checkValidity)

/-- An input that makes the unload guard consider a form dirty: a
non-empty value without the `data-initial` marker. -/
def dirtyInput (i : FormInput) : Bool :=
  i.value ≠ "" && !i.hasInitial

/-- The `beforeunload` listener's `hasUnsavedChanges` flag: some form
carries `was-validated` and has a dirty input. -/
def hasUnsavedChanges (page : List Form) : Bool :=
  page.any (fun f => f.classes.contains "was-validated" && f.inputs.any dirtyInput)

/-! ## main.js — Notification -/

/-- The banner element built by `Notification.show`: its class string,
its message, and the delay of the scheduled auto-dismiss timeout
(`none` when no timeout was scheduled). -/
structure Banner where
  className : String
  message : String
  autoDismissAfter : Option ℤ
  deriving DecidableEq, Repr

/-- Absent manual dismissal, whether the banner is still in the
document at time `t` (time units after its creation): a banner without
a scheduled timeout persists forever, one with delay `d` is removed
once `d` elapses. -/
def Banner.presentAt (b : Banner) (t : ℤ) : Bool :=
  match b.autoDismissAfter with
  | none => true
  | some d => decide (t < d)

/-- `Notification.show(message, type = 'info', duration = 5000)`:
builds the alert element and schedules `bootstrap.Alert.close` after
`duration` iff `duration > 0`. -/
def Notification.«show» (message : String) (type : String := "info")
    (duration : ℤ := 5000) : Banner :=
  { className := "alert alert-" ++ type ++ " alert-dismissible fade show position-fixed"
    message := message
    autoDismissAfter := if 0 < duration then some duration else none }

/-- `Notification.success(message)`. -/
def Notification.success (message : String) : Banner :=
  Notification.«show» message "success"

/-- `Notification.error(message)`. -/
def Notification.error (message : String) : Banner :=
  Notification.«show» message "danger"

/-- `Notification.info(message)`. -/
def Notification.info (message : String) : Banner :=
  Notification.«show» message "info"

/-- `Notification.warning(message)`. -/
def Notification.warning (message : String) : Banner :=
  Notification.«show» message "warning"

/-! ## charts.js — demo data generator

```
function generateDemoData(weeks = 7) {
    const labels = [];
    for (let i = 1; i <= weeks; i++) { labels.push(`Week ${i * 4}`); }
    const generateTrend = (start, min, max, volatility) => {
        const data = []; let current = start;
        for (let i = 0; i < weeks; i++) {
            const change = (Math.random() - 0.5) * volatility;
            current = Math.max(min, Math.min(max, current + change));
            data.push(Math.round(current));
        }
        return data;
    };
    return { labels,
             riskScores: generateTrend(25, 10, 40, 8),
             bloodPressure: generateTrend(125, 110, 140, 5),
             glucoseLevels: generateTrend(95, 70, 120, 10),
             weightGain: generateTrend(2, 0, 5, 1),
             fetalHeartRate: generateTrend(140, 120, 160, 5) };
}
```

The five `generateTrend` calls run in source order and each consumes
`weeks` fresh `Math.random()` draws, so call number `k` reads draws
`k*weeks, ..., (k+1)*weeks - 1` of the stream `rand`. -/

/-- The labels loop: `Week 4, Week 8, ...`, one entry per week. -/
def weekLabels (weeks : ℕ) : List String :=
  (List.range weeks).map (fun i => "Week " ++ toString ((i + 1) * 4))

/-- The per-step perturbation `(Math.random() - 0.5) * volatility`,
reading draw number `i` of the stream. -/
def trendChange (rand : ℕ → ℚ) (i : ℕ) (volatility : ℚ) : ℚ :=
  (rand i - 1/2) * volatility

/-- `Math.max(min, Math.min(max, v))`. -/
def clampRange (mn mx v : ℚ) : ℚ := max mn (min mx v)

/-- The `generateTrend` loop: `n` remaining iterations, `i` the index of
the next random draw, `current` the running (clamped, unrounded)
value. -/
def generateTrendAux (rand : ℕ → ℚ) (mn mx volatility : ℚ) :
    ℕ → ℕ → ℚ → List ℤ
  | 0, _, _ => []
  | n + 1, i, current =>
    let c := clampRange mn mx (current + trendChange rand i volatility)
    jsRound c :: generateTrendAux rand mn mx volatility n (i + 1) c

/-- One `generateTrend(start, min, max, volatility)` call whose first
`Math.random()` is draw number `off` of the stream. -/
def generateTrend (rand : ℕ → ℚ) (off weeks : ℕ)
    (start mn mx volatility : ℚ) : List ℤ :=
  generateTrendAux rand mn mx volatility weeks off start

/-- The object returned by `generateDemoData`. -/
structure DemoData where
  labels : List String
  riskScores : List ℤ
  bloodPressure : List ℤ
  glucoseLevels : List ℤ
  weightGain : List ℤ
  fetalHeartRate : List ℤ
  deriving DecidableEq, Repr

/-- `generateDemoData(weeks = 7)` over the draw stream `rand`. -/
def generateDemoData (rand : ℕ → ℚ) (weeks : ℕ := 7) : DemoData :=
  { labels := weekLabels weeks
    riskScores := generateTrend rand 0 weeks 25 10 40 8
    bloodPressure := generateTrend rand weeks weeks 125 110 140 5
    glucoseLevels := generateTrend rand (2 * weeks) weeks 95 70 120 10
    weightGain := generateTrend rand (3 * weeks) weeks 2 0 5 1
    fetalHeartRate := generateTrend rand (4 * weeks) weeks 140 120 160 5 }

/-! ## charts.js — createBarChart

```
function createBarChart(canvasId, data, label, color = MedicalColors.primary) {
    ...
    data: { labels: data.labels,
            datasets: [{ label: label,
                         data: data[Object.keys(data)[1]],
                         backgroundColor: color,
                         borderColor: color.replace('0.8', '1'), ... }] }, ... }
```

A JavaScript object with string keys is modelled as an association
list in key-insertion order (`Object.keys` order); object keys are
unique.  Property access `o[k]` is lookup of the first (only) entry
with key `k`, `undefined` when absent. -/

/-- `MedicalColors.primary`, the default `color` argument. -/
def MedicalColors.primary : String := "rgba(0, 255, 204, 0.8)"

/-- `Object.keys(o)`: the keys in insertion order. -/
def jsObjKeys (o : List (String × α)) : List String := o.map Prod.fst

/-- Property access `o[k]` (`none` = `undefined`). -/
def jsObjGet (o : List (String × α)) (k : String) : Option α :=
  (o.find? (fun e => e.1 == k)).map Prod.snd

/-- `data[Object.keys(data)[1]]`: the value stored under the second
key, `undefined` when the object has fewer than two keys. -/
def barChartSeries (o : List (String × α)) : Option α :=
  match (jsObjKeys o)[1]? with
  | some k => jsObjGet o k
  | none => none

/-- The parts of the chart configuration built by `createBarChart`
that the spec speaks about. -/
structure BarChart (α : Type) where
  labels : Option α
  seriesLabel : String
  seriesData : Option α
  backgroundColor : String
  borderColor : String

/-- `createBarChart(canvasId, data, label, color)` (the canvas lookup
and the `Chart` constructor are external; the configuration it is
handed is what we model). -/
def createBarChart (data : List (String × α)) (label : String)
    (color : String := MedicalColors.primary) : BarChart α :=
  { labels := jsObjGet data "labels"
    seriesLabel := label
    seriesData := barChartSeries data
    backgroundColor := color
    borderColor := jsReplaceOnce color "0.8" "1" }

/-- A one-form page used to exercise `validateForm` on concrete input:
a form `f1` that fails native validation and holds one non-empty input
without the `data-initial` marker. -/
def examplePage : List Form :=
  [{ id := "f1", classes := [], checkValidity := false,
     inputs := [{ value := "x", hasInitial := false }] }]

/-! ## Theorems -/

/-- C1: the spec claims that with the sidebar (or toggle) element
absent, layout initialization skips the sidebar feature silently and no
later document-wide click at any viewport width raises an error.  The
code violates this: the document-wide click listener is installed
unconditionally (only the toggle-click listener sits inside
`if (sidebarToggle && sidebar)`), and at any viewport width ≤ 768 it
dereferences the `null` sidebar (`sidebar.classList`), throwing a
`TypeError`.  This theorem evaluates the handler at the failing input:
no sidebar element, viewport width 500, any click. -/
theorem C1_missing_sidebar_click_throws :
    documentClickHandler 500 none false false =
      Except.error "TypeError: Cannot read properties of null (reading classList)" := rfl

/-- C2 (counterexample): the claim says the open marker is removed only
when the viewport width is strictly below 768; the code tests
`window.innerWidth <= 768`, so at width exactly 768 an outside click on
an open sidebar still removes the `active` class. -/
theorem C2_counterexample_width_768 :
    documentClickHandler 768 (some true) false false = Except.ok (some false) ∧
    ¬ ((768 : ℤ) < 768) := ⟨rfl, by decide⟩

/-- C2 (amended): on a document click with the sidebar element present,
the `active` class is removed if and only if the viewport width is at
most 768 (the code uses `<=`, not `<`), the sidebar has the `active`
class, the click target is not contained in the sidebar, and the target
is not the toggle control; in every other case the handler leaves the
class state unchanged (and never errors). -/
theorem C2_amended_click_closes_iff (w : ℤ) (active targetInSidebar targetIsToggle : Bool) :
    documentClickHandler w (some active) targetInSidebar targetIsToggle =
      Except.ok (some
        (if w ≤ 768 ∧ active = true ∧ targetInSidebar = false ∧ targetIsToggle = false
          then false else active)) := by
  by_cases hw : w ≤ 768
  · simp only [documentClickHandler, if_pos hw, hw, true_and]
    split_ifs <;> rfl
  · simp only [documentClickHandler, if_neg hw]
    rw [if_neg (by tauto)]

/-- C3 (counterexample): the claim says a link is marked active iff its
raw `href` is a substring of the current path.  The code first strips
the first slash (`href.replace('/', '')`) and tests that stripped
string: with path `/data` and `href="/at"`, the code marks the link
active (`at` occurs in `/data`) although `/at` is not a substring of
`/data` and the href is not `#`. -/
theorem C3_counterexample_stripped_slash :
    (navStep "/data" { href := some "/at", active := false }).active = true ∧
    ¬ (("/at" : String).data <:+: ("/data" : String).data) ∧
    ("/at" : String) ≠ "#" := by
  refine ⟨rfl, by decide, by decide⟩

/-- C3 (amended): after the `navLinks.forEach` pass, a navigation link
is marked active if and only if it has an `href` attribute that is
non-empty, not exactly `#`, and whose text with the first `/` removed
is a substring of the current path; every other link has the active
marker removed.  The pass never changes a link's `href`. -/
theorem C3_amended_nav_active_iff (p : String) (links : List NavLink) (l : NavLink)
    (hl : l ∈ links) :
    navStep p l ∈ navUpdate p links ∧
    ((navStep p l).active = true ↔
      ∃ h, l.href = some h ∧ h ≠ "" ∧
        (jsReplaceOnce h "/" "").data <:+: p.data ∧ h ≠ "#") ∧
    (navStep p l).href = l.href := by
  refine ⟨List.mem_map_of_mem _ hl, ?_, ?_⟩
  · cases hh : l.href with
    | none => simp [navStep, hh]
    | some h =>
      by_cases hc : h ≠ "" ∧ (jsReplaceOnce h "/" "").data <:+: p.data ∧ h ≠ "#"
      · simp only [navStep, hh, if_pos hc]
        simp only [true_iff]
        exact ⟨h, rfl, hc⟩
      · simp only [navStep, hh, if_neg hc]
        simp only [Bool.false_eq_true, false_iff, not_exists]
        rintro h' ⟨hh', hcond⟩
        cases Option.some.inj hh'
        exact hc hcond
  · cases hh : l.href with
    | none => simp [navStep, hh]
    | some h =>
      simp only [navStep, hh]
      split_ifs <;> rfl

/-- C3 (amended) witness at a concrete link list: the `/patients` link
is active under path `/patients/123`. -/
theorem C3_amended_witness :
    ({ href := some "/patients", active := false } : NavLink) ∈
      [({ href := some "/patients", active := false } : NavLink),
       { href := some "#", active := true }] ∧
    (navStep "/patients/123" { href := some "/patients", active := false }).active = true := by
  constructor
  · exact List.mem_cons_self _ _
  · exact (C3_amended_nav_active_iff "/patients/123"
      [{ href := some "/patients", active := false }, { href := some "#", active := true }]
      { href := some "/patients", active := false } (List.mem_cons_self _ _)).2.1.mpr
      ⟨"/patients", rfl, by decide, by decide, by decide⟩

/-- C4: for every `weeks ≥ 1` (and every random stream), the `labels`
array of `generateDemoData(weeks)` has length exactly `weeks`, and its
`i`-th entry (0-based) is `"Week "` followed by `4 * (i + 1)`. -/
theorem C4_week_labels (rand : ℕ → ℚ) (weeks : ℕ) (hw : 1 ≤ weeks) :
    (generateDemoData rand weeks).labels.length = weeks ∧
    ∀ i, i < weeks → (generateDemoData rand weeks).labels[i]? =
      some ("Week " ++ toString (4 * (i + 1))) := by
  constructor
  · simp [generateDemoData, weekLabels]
  · intro i hi
    simp [generateDemoData, weekLabels, List.getElem?_map, List.getElem?_range hi,
      Nat.mul_comm]

/-- C4 witness at `weeks = 3`: three labels and `labels[1] = "Week 8"`. -/
theorem C4_week_labels_witness :
    (1 ≤ 3 ∧ (generateDemoData (fun _ => 0) 3).labels.length = 3) ∧
    (generateDemoData (fun _ => 0) 3).labels[1]? =
      some ("Week " ++ toString (4 * (1 + 1))) :=
  ⟨⟨by decide, (C4_week_labels (fun _ => 0) 3 (by decide)).1⟩,
   (C4_week_labels (fun _ => 0) 3 (by decide)).2 1 (by decide)⟩

/-- Rounding half-up keeps a rational between two integer bounds
between those bounds. -/
theorem jsRound_mem_Icc (mn mx : ℤ) (x : ℚ) (h1 : (mn : ℚ) ≤ x) (h2 : x ≤ (mx : ℚ)) :
    mn ≤ jsRound x ∧ jsRound x ≤ mx := by
  constructor
  · exact Int.le_floor.mpr (by linarith)
  · exact Int.floor_le_iff.mpr (by linarith)

/-- The clamp `Math.max(min, Math.min(max, v))` lands in `[min, max]`
whenever `min ≤ max`. -/
theorem clampRange_mem_Icc (mn mx v : ℚ) (h : mn ≤ mx) :
    mn ≤ clampRange mn mx v ∧ clampRange mn mx v ≤ mx :=
  ⟨le_max_left _ _, max_le h (min_le_left _ _)⟩

/-- The `generateTrend` loop emits one value per iteration. -/
theorem generateTrendAux_length (rand : ℕ → ℚ) (mn mx vol : ℚ) :
    ∀ (n i : ℕ) (cur : ℚ), (generateTrendAux rand mn mx vol n i cur).length = n := by
  intro n
  induction n with
  | zero => intro i cur; rfl
  | succ n ih => intro i cur; simp [generateTrendAux, ih]

/-- Every value the `generateTrend` loop emits lies between the integer
clamp bounds, whatever the random draws and the running value. -/
theorem generateTrendAux_mem_Icc (rand : ℕ → ℚ) (mn mx : ℤ) (mnq mxq : ℚ)
    (hmn : mnq = (mn : ℚ)) (hmx : mxq = (mx : ℚ)) (hle : (mn : ℚ) ≤ (mx : ℚ)) (vol : ℚ) :
    ∀ (n i : ℕ) (cur : ℚ) (x : ℤ),
      x ∈ generateTrendAux rand mnq mxq vol n i cur → mn ≤ x ∧ x ≤ mx := by
  intro n
  induction n with
  | zero => intro i cur x hx; simp [generateTrendAux] at hx
  | succ n ih =>
    intro i cur x hx
    rw [generateTrendAux] at hx
    rcases List.mem_cons.mp hx with h | h
    · subst h hmn hmx
      have hc := clampRange_mem_Icc (mn : ℚ) (mx : ℚ)
        (cur + trendChange rand i vol) hle
      exact jsRound_mem_Icc mn mx _ hc.1 hc.2
    · exact ih _ _ _ h

/-- C5: for every `weeks` and every sequence of random draws in
`[0, 1)`, each of the five series of `generateDemoData` has length
`weeks` and all its entries are integers lying inclusively within the
metric's declared `[min, max]` range (risk 10–40, blood pressure
110–140, glucose 70–120, weight gain 0–5, fetal heart rate 120–160).
Each series is by construction (`generateTrend`) a random walk from the
metric's start value whose per-step perturbation
`(Math.random() - 0.5) * volatility` lies in
`[-volatility/2, volatility/2]` for each metric's volatility, the walk
value being clamped to the range before rounding. -/
theorem C5_series_bounded (rand : ℕ → ℚ) (weeks : ℕ)
    (hr : ∀ i, 0 ≤ rand i ∧ rand i < 1) :
    ((generateDemoData rand weeks).riskScores.length = weeks ∧
      ∀ x ∈ (generateDemoData rand weeks).riskScores, (10 : ℤ) ≤ x ∧ x ≤ 40) ∧
    ((generateDemoData rand weeks).bloodPressure.length = weeks ∧
      ∀ x ∈ (generateDemoData rand weeks).bloodPressure, (110 : ℤ) ≤ x ∧ x ≤ 140) ∧
    ((generateDemoData rand weeks).glucoseLevels.length = weeks ∧
      ∀ x ∈ (generateDemoData rand weeks).glucoseLevels, (70 : ℤ) ≤ x ∧ x ≤ 120) ∧
    ((generateDemoData rand weeks).weightGain.length = weeks ∧
      ∀ x ∈ (generateDemoData rand weeks).weightGain, (0 : ℤ) ≤ x ∧ x ≤ 5) ∧
    ((generateDemoData rand weeks).fetalHeartRate.length = weeks ∧
      ∀ x ∈ (generateDemoData rand weeks).fetalHeartRate, (120 : ℤ) ≤ x ∧ x ≤ 160) ∧
    (∀ i, ∀ vol ∈ ([8, 5, 10, 1, 5] : List ℚ),
      -(vol / 2) ≤ trendChange rand i vol ∧ trendChange rand i vol ≤ vol / 2) := by
  refine ⟨⟨?_, ?_⟩, ⟨?_, ?_⟩, ⟨?_, ?_⟩, ⟨?_, ?_⟩, ⟨?_, ?_⟩, ?_⟩
  · exact generateTrendAux_length rand _ _ _ weeks 0 25
  · exact fun x hx => generateTrendAux_mem_Icc rand 10 40 10 40
      (by norm_num) (by norm_num) (by norm_num) 8 weeks 0 25 x hx
  · exact generateTrendAux_length rand _ _ _ weeks weeks 125
  · exact fun x hx => generateTrendAux_mem_Icc rand 110 140 110 140
      (by norm_num) (by norm_num) (by norm_num) 5 weeks weeks 125 x hx
  · exact generateTrendAux_length rand _ _ _ weeks (2 * weeks) 95
  · exact fun x hx => generateTrendAux_mem_Icc rand 70 120 70 120
      (by norm_num) (by norm_num) (by norm_num) 10 weeks (2 * weeks) 95 x hx
  · exact generateTrendAux_length rand _ _ _ weeks (3 * weeks) 2
  · exact fun x hx => generateTrendAux_mem_Icc rand 0 5 0 5
      (by norm_num) (by norm_num) (by norm_num) 1 weeks (3 * weeks) 2 x hx
  · exact generateTrendAux_length rand _ _ _ weeks (4 * weeks) 140
  · exact fun x hx => generateTrendAux_mem_Icc rand 120 160 120 160
      (by norm_num) (by norm_num) (by norm_num) 5 weeks (4 * weeks) 140 x hx
  · intro i vol hvol
    obtain ⟨h0, h1⟩ := hr i
    fin_cases hvol <;>
      constructor <;> simp only [trendChange] <;> nlinarith [h0, h1]

/-- C5 witness: the constant stream `1/2` with `weeks = 2`. -/
theorem C5_series_bounded_witness :
    (∀ i : ℕ, 0 ≤ (fun _ : ℕ => (1 : ℚ)/2) i ∧ (fun _ : ℕ => (1 : ℚ)/2) i < 1) ∧
    ((generateDemoData (fun _ => (1 : ℚ)/2) 2).riskScores.length = 2 ∧
      ∀ x ∈ (generateDemoData (fun _ => (1 : ℚ)/2) 2).riskScores, (10 : ℤ) ≤ x ∧ x ≤ 40) := by
  have h : ∀ i : ℕ, 0 ≤ (fun _ : ℕ => (1 : ℚ)/2) i ∧ (fun _ : ℕ => (1 : ℚ)/2) i < 1 :=
    fun _ => by norm_num
  exact ⟨h, (C5_series_bounded (fun _ => (1 : ℚ)/2) 2 h).1⟩

/-- C6: with object keys unique (as they are for any JavaScript
object), `createBarChart` renders as its series the value stored under
the second key of the object's key ordering — whatever that key is
named — while `data.labels` supplies the category labels.  (With fewer
than two keys the series access is `undefined`, which the right-hand
side also captures.) -/
theorem C6_second_key_series {α : Type} (o : List (String × α)) (lbl col : String)
    (hnd : (jsObjKeys o).Nodup) :
    (createBarChart o lbl col).seriesData = o[1]?.map Prod.snd ∧
    (createBarChart o lbl col).labels = jsObjGet o "labels" := by
  refine ⟨?_, rfl⟩
  match o with
  | [] => rfl
  | [a] => rfl
  | a :: b :: t =>
    have ha : a.1 ≠ b.1 := by
      rcases List.nodup_cons.mp hnd with ⟨hm, _⟩
      exact fun h => hm (by simp [jsObjKeys, h])
    simp only [createBarChart, barChartSeries, jsObjKeys, List.map_cons,
      List.getElem?_cons_succ, List.getElem?_cons_zero, jsObjGet]
    rw [List.find?_cons_of_neg _ (by simpa using ha),
      List.find?_cons_of_pos _ (by simp)]

/-- C6 witness: `{labels: [9], foo: [1, 2, 3]}` renders `[1, 2, 3]`. -/
theorem C6_second_key_series_witness :
    (jsObjKeys ([("labels", [(9 : ℚ)]), ("foo", [1, 2, 3])] : List (String × List ℚ))).Nodup ∧
    (createBarChart [("labels", [(9 : ℚ)]), ("foo", [1, 2, 3])] "Stat").seriesData =
      some [1, 2, 3] := by
  have hnd : (jsObjKeys ([("labels", [(9 : ℚ)]), ("foo", [1, 2, 3])] :
      List (String × List ℚ))).Nodup := by decide
  refine ⟨hnd, ?_⟩
  rw [(C6_second_key_series _ "Stat" MedicalColors.primary hnd).1]
  rfl

/-- `String.prototype.replace` with a string pattern leaves a string
without any occurrence of the pattern unchanged. -/
theorem replaceOnceAux_no_occurrence (pat rep : List Char) :
    ∀ l : List Char, ¬ pat <:+: l → replaceOnceAux pat rep l = l := by
  intro l
  induction l with
  | nil => intro _; rfl
  | cons c cs ih =>
    intro h
    rw [replaceOnceAux, if_neg, ih]
    · intro hi
      rcases hi with ⟨s, t, hst⟩
      exact h ⟨c :: s, t, by rw [← hst]; rfl⟩
    · intro hp
      exact h ((List.isPrefixOf_iff_prefix.mp hp).isInfix)

/-- String-level version of `replaceOnceAux_no_occurrence`. -/
theorem jsReplaceOnce_no_occurrence (s pat rep : String)
    (h : ¬ pat.data <:+: s.data) : jsReplaceOnce s pat rep = s := by
  cases s with
  | mk l => exact congrArg String.mk (replaceOnceAux_no_occurrence pat.data rep.data l h)

/-- C7: `createBarChart`'s border color is the fill color with the
first occurrence of the literal substring `0.8` replaced by `1` (on the
default palette color this yields `rgba(0, 255, 204, 1)`); for every
fill color not containing `0.8` the border color is identical to the
fill color. -/
theorem C7_border_color (color lbl : String) (data : List (String × List ℚ)) :
    (createBarChart data lbl color).borderColor = jsReplaceOnce color "0.8" "1" ∧
    jsReplaceOnce MedicalColors.primary "0.8" "1" = "rgba(0, 255, 204, 1)" ∧
    (¬ (("0.8" : String).data <:+: color.data) →
      (createBarChart data lbl color).borderColor = color) := by
  refine ⟨rfl, by decide, fun h => jsReplaceOnce_no_occurrence color "0.8" "1" h⟩

/-- C7 witness: the transparent palette color `rgba(220, 53, 69, 0.1)`
contains no `0.8`, so its border color equals the fill color. -/
theorem C7_border_color_witness :
    ¬ (("0.8" : String).data <:+: ("rgba(220, 53, 69, 0.1)" : String).data) ∧
    (createBarChart ([] : List (String × List ℚ)) "x" "rgba(220, 53, 69, 0.1)").borderColor =
      "rgba(220, 53, 69, 0.1)" := by
  have h : ¬ (("0.8" : String).data <:+: ("rgba(220, 53, 69, 0.1)" : String).data) := by
    decide
  exact ⟨h, (C7_border_color "rgba(220, 53, 69, 0.1)" "x" []).2.2 h⟩

/-- C8: `Notification.show(message, severity, duration)` schedules the
automatic dismissal of the banner exactly when `duration` is strictly
positive, and then with delay exactly `duration`; with `duration ≤ 0`
no dismissal is ever scheduled and the banner persists at every time
absent manual dismissal.  In particular a `duration = 0` banner is
never auto-dismissed, and a `duration = 5000` banner is gone at every
time ≥ 5000. -/
theorem C8_auto_dismissal (msg ty : String) (d t : ℤ) :
    ((Notification.«show» msg ty d).autoDismissAfter = some d ↔ 0 < d) ∧
    ((Notification.«show» msg ty d).autoDismissAfter = none ↔ d ≤ 0) ∧
    (Notification.«show» msg ty 0).autoDismissAfter = none ∧
    (Notification.«show» msg ty 0).presentAt t = true ∧
    (0 < d → ((Notification.«show» msg ty d).presentAt t = true ↔ t < d)) ∧
    (5000 ≤ t → (Notification.«show» msg ty 5000).presentAt t = false) := by
  refine ⟨?_, ?_, rfl, rfl, ?_, ?_⟩
  · by_cases hd : 0 < d <;>
      simp [Notification.«show», hd]
  · by_cases hd : 0 < d
    · simp [Notification.«show», hd]
    · simp [Notification.«show», hd]
      omega
  · intro hd
    simp [Notification.«show», hd, Banner.presentAt]
  · intro ht
    simp only [Notification.«show», if_pos (by norm_num : (0 : ℤ) < 5000), Banner.presentAt]
    simpa using by omega

/-- C8 witness: a 7-unit banner is scheduled for dismissal after 7
units, a 0-unit banner never, and a 5000-unit banner is gone at time
6000. -/
theorem C8_auto_dismissal_witness :
    ((0 : ℤ) < 7 ∧ (Notification.«show» "m" "info" 7).autoDismissAfter = some 7) ∧
    (Notification.«show» "m" "info" 0).autoDismissAfter = none ∧
    ((5000 : ℤ) ≤ 6000 ∧ (Notification.«show» "m" "info" 5000).presentAt 6000 = false) := by
  have h7 : (0 : ℤ) < 7 := by norm_num
  have h6 : (5000 : ℤ) ≤ 6000 := by norm_num
  exact ⟨⟨h7, (C8_auto_dismissal "m" "info" 7 6000).1.mpr h7⟩,
    (C8_auto_dismissal "m" "info" 0 6000).2.2.1,
    h6, (C8_auto_dismissal "m" "info" 5000 6000).2.2.2.2.2 h6⟩

/-- C9: each convenience constructor equals `show` applied with its
fixed severity and the default 5000-unit duration, including the
severity class on the created banner (`error` carries the `danger`
class). -/
theorem C9_convenience_equals_show (m : String) :
    Notification.success m = Notification.«show» m "success" 5000 ∧
    Notification.error m = Notification.«show» m "danger" 5000 ∧
    Notification.info m = Notification.«show» m "info" 5000 ∧
    Notification.warning m = Notification.«show» m "warning" 5000 ∧
    (Notification.error m).className =
      "alert alert-danger alert-dismissible fade show position-fixed" :=
  ⟨rfl, rfl, rfl, rfl, rfl⟩

/-- `find?` hitting an element splits the list: an untouched prefix on
which the predicate fails, the hit, and the rest; `updateFirst` then
rewrites exactly the hit. -/
theorem updateFirst_of_find? (p : α → Bool) (g : α → α) :
    ∀ (l : List α) (f : α), l.find? p = some f →
      ∃ l₁ l₂, l = l₁ ++ f :: l₂ ∧ updateFirst p g l = l₁ ++ g f :: l₂ ∧ p f = true := by
  intro l
  induction l with
  | nil => intro f h; simp [List.find?] at h
  | cons x xs ih =>
    intro f h
    by_cases hx : p x = true
    · rw [List.find?_cons_of_pos _ hx] at h
      cases Option.some.inj h
      exact ⟨[], xs, rfl, by simp [updateFirst, hx], hx⟩
    · rw [List.find?_cons_of_neg _ (by simpa using hx)] at h
      obtain ⟨l₁, l₂, he, hu, hp⟩ := ih f h
      exact ⟨x :: l₁, l₂, by simp [he], by simp [updateFirst, hx, hu], hp⟩

/-- `classList.add` guarantees membership. -/
theorem mem_addClass (classes : List String) (c : String) : c ∈ addClass classes c := by
  unfold addClass
  split_ifs with h
  · exact h
  · simp

/-- C10: `validateForm(formId)` never throws (it is a total function of
the page): with no form of that id it returns `true` and leaves the
page unchanged; otherwise it returns the form's native
`checkValidity()` result and adds the `was-validated` class to the form
even when validation fails — in particular, if the form holds an input
with a non-empty value lacking the `data-initial` marker, the page is
now flagged by the `beforeunload` guard. -/
theorem C10_validateForm (page : List Form) (formId : String) :
    (getFormById page formId = none → validateForm page formId = (page, true)) ∧
    (∀ f, getFormById page formId = some f →
      (validateForm page formId).2 = f.checkValidity ∧
      (∃ f', f' ∈ (validateForm page formId).1 ∧ f'.id = f.id ∧
        f'.checkValidity = f.checkValidity ∧ f'.inputs = f.inputs ∧
        "was-validated" ∈ f'.classes) ∧
      (f.inputs.any dirtyInput = true →
        hasUnsavedChanges (validateForm page formId).1 = true)) := by
  constructor
  · intro h
    simp [validateForm, h]
  · intro f hf
    have hv : validateForm page formId =
        (updateFirst (fun f => f.id == formId)
          (fun f => { f with classes := addClass f.classes "was-validated" }) page,
         f.checkValidity) := by
      simp [validateForm, hf]
    have hf' : page.find? (fun f => f.id == formId) = some f := hf
    obtain ⟨l₁, l₂, _, hu, _⟩ :=
      updateFirst_of_find? (fun f => f.id == formId)
        (fun f => { f with classes := addClass f.classes "was-validated" }) page f hf'
    have hmem : ({ f with classes := addClass f.classes "was-validated" } : Form) ∈
        (validateForm page formId).1 := by
      rw [hv]
      simp [hu]
    refine ⟨by rw [hv], ⟨_, hmem, rfl, rfl, rfl, mem_addClass f.classes _⟩, ?_⟩
    intro hdirty
    refine List.any_eq_true.mpr ⟨_, hmem, ?_⟩
    have hwv : List.contains (addClass f.classes "was-validated") "was-validated" = true :=
      List.elem_eq_true_of_mem (mem_addClass f.classes _)
    simp only [hwv, Bool.true_and]
    exact hdirty

/-- C10 witness: on `examplePage`, a missing id is treated as valid
with no change; validating `f1` returns its failing native validity,
marks it `was-validated`, and trips the unload guard. -/
theorem C10_validateForm_witness :
    (getFormById examplePage "nope" = none ∧
      validateForm examplePage "nope" = (examplePage, true)) ∧
    (getFormById examplePage "f1" =
        some { id := "f1", classes := [], checkValidity := false,
               inputs := [{ value := "x", hasInitial := false }] } ∧
      (validateForm examplePage "f1").2 = false ∧
      hasUnsavedChanges (validateForm examplePage "f1").1 = true) := by
  have h1 : getFormById examplePage "nope" = none := by decide
  have h2 : getFormById examplePage "f1" =
      some { id := "f1", classes := [], checkValidity := false,
             inputs := [{ value := "x", hasInitial := false }] } := by decide
  obtain ⟨hsnd, _, hguard⟩ := (C10_validateForm examplePage "f1").2 _ h2
  exact ⟨⟨h1, (C10_validateForm examplePage "nope").1 h1⟩,
    h2, hsnd, hguard (by decide)⟩

end Medicare
